import Mathlib

/-!
Verification of `rmm::mr::cuda_memory_resource`
(src/include/rmm/mr/device/cuda_memory_resource.hpp).

The header forwards allocation and deallocation straight to the CUDA
runtime primitives `cudaMalloc`, `cudaFree` and `cudaMemGetInfo`, wrapping
their status codes with the macros `RMM_CUDA_TRY_ALLOC`,
`RMM_ASSERT_CUDA_SUCCESS` and `RMM_CUDA_TRY`.  The CUDA runtime is an
external collaborator; we embed it as an explicit device state with the
interface the spec describes (`native_alloc(bytes) -> (pointer, status)`,
`native_free(pointer) -> status`, `native_mem_info()`).  Pointers are
addresses in `Nat`, with `0` playing the role of `nullptr`.
-/

/-- CUDA runtime status codes relevant to this resource: success,
the allocation-failure code, and codes for non-allocation device errors. -/
inductive cudaError_t where
  | cudaSuccess
  | cudaErrorMemoryAllocation
  | cudaErrorInvalidValue
  | cudaErrorIllegalAddress
  | cudaErrorUnknown
deriving DecidableEq, Repr

/-- The failure taxonomy the wrapper macros translate CUDA statuses into:
`out_of_memory` for an allocation the device cannot satisfy, `cuda_error`
for every other device/driver error.  Both are thrown to the caller as
recoverable typed failures (`Except.error`). -/
inductive rmm_error where
  | out_of_memory
  | cuda_error (status : cudaError_t)
deriving DecidableEq, Repr

/-- Outcome of a deallocation: either the free succeeded, or the
`RMM_ASSERT_CUDA_SUCCESS` path fired, which terminates the program
(a fatal assertion, not a recoverable error and not a silent no-op). -/
inductive DeallocOutcome where
  | ok
  | fatalAssert
deriving DecidableEq, Repr

/-- A CUDA stream token (`rmm::cuda_stream_view`).  Opaque ordering-context
identifier; `cuda_memory_resource` accepts it but never reads it. -/
abbrev cuda_stream_view : Type := Nat

/-- The default stream token. -/
def defaultStream : cuda_stream_view := 0

/-- A latched device/driver fault: one of the non-success,
non-allocation-related error conditions a device can be in. -/
inductive FaultCode where
  | faultInvalidValue
  | faultIllegalAddress
  | faultUnknown
deriving DecidableEq, Repr

/-- The CUDA status code a native call reports when the device carries
the given latched fault; never `cudaSuccess`. -/
def FaultCode.toError : FaultCode → cudaError_t
  | .faultInvalidValue => .cudaErrorInvalidValue
  | .faultIllegalAddress => .cudaErrorIllegalAddress
  | .faultUnknown => .cudaErrorUnknown

/-- State of the accelerator device as seen through the native primitives:
total capacity, current free bytes, the list of live allocations as
(address, size) pairs with the newest first, a counter from which fresh
256-byte-aligned nonzero addresses are minted, and an optional sticky
device/driver fault that makes every native call report its error. -/
structure DeviceState where
  total : Nat
  freeBytes : Nat
  live : List (Nat × Nat)
  nextIdx : Nat
  deviceFault : Option FaultCode
deriving DecidableEq, Repr

/-- Remove the first live allocation record whose address is `ptr`. -/
def removeFirst (ptr : Nat) : List (Nat × Nat) → List (Nat × Nat)
  | [] => []
  | a :: rest => if a.1 = ptr then rest else a :: removeFirst ptr rest

/-- The native allocation primitive `cudaMalloc(&ptr, bytes)`.
With a faulted device it reports the fault.  A zero-byte request succeeds
without allocating, yielding the null sentinel.  Otherwise, if `bytes`
fit in the free counter a fresh 256-aligned nonzero address is returned
and recorded; if not, the call reports `cudaErrorMemoryAllocation`.
Returns (written pointer, status) and the updated device; on failure the
output pointer keeps its `nullptr` initialisation. -/
def cudaMalloc (st : DeviceState) (bytes : Nat) :
    (Nat × cudaError_t) × DeviceState :=
  match st.deviceFault with
  | some f => ((0, f.toError), st)
  | none =>
    if bytes = 0 then ((0, .cudaSuccess), st)
    else if bytes ≤ st.freeBytes then
      ((256 * (st.nextIdx + 1), .cudaSuccess),
       { st with
          freeBytes := st.freeBytes - bytes
          live := (256 * (st.nextIdx + 1), bytes) :: st.live
          nextIdx := st.nextIdx + 1 })
    else ((0, .cudaErrorMemoryAllocation), st)

/-- The native free primitive `cudaFree(ptr)`.  Freeing `nullptr` is a
documented no-op that succeeds.  Freeing a live address succeeds, removes
the record and returns its size to the free counter.  Freeing anything
else (double free, foreign pointer) reports `cudaErrorInvalidValue`. -/
def cudaFree (st : DeviceState) (ptr : Nat) : cudaError_t × DeviceState :=
  if ptr = 0 then (.cudaSuccess, st)
  else
    match st.deviceFault with
    | some f => (f.toError, st)
    | none =>
      match st.live.find? (fun a => a.1 = ptr) with
      | some rec0 =>
          (.cudaSuccess,
           { st with
              freeBytes := st.freeBytes + rec0.2
              live := removeFirst ptr st.live })
      | none => (.cudaErrorInvalidValue, st)

/-- The native info primitive `cudaMemGetInfo(&free, &total)`: the
device-wide free/total counters, or the device fault if one is latched
(the output variables then keep their zero initialisation). -/
def cudaMemGetInfo (st : DeviceState) : (Nat × Nat) × cudaError_t :=
  match st.deviceFault with
  | some f => ((0, 0), f.toError)
  | none => ((st.freeBytes, st.total), .cudaSuccess)

/-- Modelled from the spec: the macro `RMM_CUDA_TRY_ALLOC` of
`rmm/detail/error.hpp` (not under src/).  Per the spec's failure model,
an allocation the native primitive could not satisfy surfaces as
OutOfMemory, and any other device error during `allocate` surfaces as a
device-error failure distinct from OutOfMemory; both are typed failures
thrown to the immediate caller. -/
def RMM_CUDA_TRY_ALLOC (status : cudaError_t) : Except rmm_error Unit :=
  match status with
  | .cudaSuccess => .ok ()
  | .cudaErrorMemoryAllocation => .error .out_of_memory
  | e => .error (.cuda_error e)

/-- Modelled from the spec: the macro `RMM_CUDA_TRY` of
`rmm/detail/error.hpp` (not under src/).  A failing native call inside
`get_mem_info` throws `rmm::cuda_error` carrying the status to the
immediate caller. -/
def RMM_CUDA_TRY (status : cudaError_t) : Except rmm_error Unit :=
  match status with
  | .cudaSuccess => .ok ()
  | e => .error (.cuda_error e)

/-- Modelled from the spec: the macro `RMM_ASSERT_CUDA_SUCCESS` of
`rmm/detail/error.hpp` (not under src/).  A failed native free is treated
as a fatal assertion failure (program termination), never as a
recoverable error and never as a silent no-op. -/
def RMM_ASSERT_CUDA_SUCCESS (status : cudaError_t) : DeallocOutcome :=
  match status with
  | .cudaSuccess => .ok
  | _ => .fatalAssert

/-- `rmm::mr::cuda_memory_resource`: the concrete resource class.  It
declares no data members of its own (lines 35-44 of the header add only
defaulted special member functions), so the structure is fieldless. -/
structure cuda_memory_resource where
deriving DecidableEq, Repr

/-- Modelled from the spec: the abstract base `device_memory_resource`
(`rmm/mr/device/device_memory_resource.hpp`, not under src/).  A value of
the interface type carries its dynamic type: either the concrete
`cuda_memory_resource`, or some other concrete resource type identified
by a tag. -/
inductive device_memory_resource where
  | cuda_resource (r : cuda_memory_resource)
  | other_resource (tag : String)
deriving DecidableEq, Repr

/-- The `dynamic_cast<cuda_memory_resource const*>` test of line 109:
succeeds exactly when the dynamic type is `cuda_memory_resource`. -/
def dyn_cast_cuda : device_memory_resource → Option cuda_memory_resource
  | .cuda_resource r => some r
  | .other_resource _ => none

/-- `cuda_memory_resource::supports_streams` (line 52): returns false. -/
def supports_streams (_self : cuda_memory_resource) : Bool := false

/-- `cuda_memory_resource::supports_get_mem_info` (line 59): returns
true. -/
def supports_get_mem_info (_self : cuda_memory_resource) : Bool := true

/-- `cuda_memory_resource::do_allocate` (lines 73-78):
`void* ptr{nullptr}; RMM_CUDA_TRY_ALLOC(cudaMalloc(&ptr, bytes));
return ptr;`.  The stream argument is ignored. -/
def do_allocate (_self : cuda_memory_resource) (st : DeviceState)
    (bytes : Nat) (_stream : cuda_stream_view) :
    Except rmm_error (Nat × DeviceState) :=
  let r := cudaMalloc st bytes
  match RMM_CUDA_TRY_ALLOC r.1.2 with
  | .error e => .error e
  | .ok _ => .ok (r.1.1, r.2)

/-- `cuda_memory_resource::do_deallocate` (lines 90-95):
`RMM_ASSERT_CUDA_SUCCESS(cudaFree(ptr));`.  The `bytes` and `stream`
arguments are ignored. -/
def do_deallocate (_self : cuda_memory_resource) (st : DeviceState)
    (ptr : Nat) (_bytes : Nat) (_stream : cuda_stream_view) :
    DeallocOutcome × DeviceState :=
  let r := cudaFree st ptr
  (RMM_ASSERT_CUDA_SUCCESS r.1, r.2)

/-- `cuda_memory_resource::do_is_equal` (lines 107-110):
`dynamic_cast<cuda_memory_resource const*>(&other) != nullptr`. -/
def do_is_equal (_self : cuda_memory_resource)
    (other : device_memory_resource) : Bool :=
  (dyn_cast_cuda other).isSome

/-- `cuda_memory_resource::do_get_mem_info` (lines 119-125):
`std::size_t free_size{}; std::size_t total_size{};
RMM_CUDA_TRY(cudaMemGetInfo(&free_size, &total_size));
return std::make_pair(free_size, total_size);`. -/
def do_get_mem_info (_self : cuda_memory_resource) (st : DeviceState)
    (_stream : cuda_stream_view) : Except rmm_error (Nat × Nat) :=
  let r := cudaMemGetInfo st
  match RMM_CUDA_TRY r.2 with
  | .error e => .error e
  | .ok _ => .ok (r.1.1, r.1.2)

/-- A healthy concrete device for witnesses: 4096 bytes total and free,
no live allocations, no fault. -/
def healthyState : DeviceState :=
  { total := 4096, freeBytes := 4096, live := [], nextIdx := 0,
    deviceFault := none }

/-- A concrete device whose driver has latched a fault. -/
def faultedState : DeviceState :=
  { total := 4096, freeBytes := 4096, live := [], nextIdx := 0,
    deviceFault := some .faultUnknown }

/-- C1: for every pair of `cuda_memory_resource` instances `a` and `b`,
`a.is_equal(b)` returns true, decided purely by the `dynamic_cast`
type-identity test on the dynamic type of `b` (no field is compared). -/
theorem C1_is_equal_same_type (a b : cuda_memory_resource) :
    do_is_equal a (.cuda_resource b) = true ∧
    ∀ other : device_memory_resource,
      do_is_equal a other = (dyn_cast_cuda other).isSome := by
  exact ⟨rfl, fun _ => rfl⟩

/-- C10: for every resource whose dynamic type is not
`cuda_memory_resource`, `is_equal` returns false: the allocator never
claims cross-type deallocation compatibility. -/
theorem C10_is_equal_other_type (a : cuda_memory_resource) (tag : String) :
    do_is_equal a (.other_resource tag) = false := rfl

/-- C4: `supports_streams()` returns false, and the stream argument has
no semantic effect: for any two stream tokens, `allocate` and
`deallocate` behave identically. -/
theorem C4_streams_no_effect (self : cuda_memory_resource)
    (st : DeviceState) (bytes ptr : Nat) (s1 s2 : cuda_stream_view) :
    supports_streams self = false ∧
    do_allocate self st bytes s1 = do_allocate self st bytes s2 ∧
    do_deallocate self st ptr bytes s1 = do_deallocate self st ptr bytes s2 := by
  exact ⟨rfl, rfl, rfl⟩

/-- C9: the resource is stateless: the class stores no fields (any two
instances are equal, so no record of outstanding allocations can live in
the object), and every operation's result is independent of which
instance performs it, leaving the instance unchanged. -/
theorem C9_stateless (r1 r2 : cuda_memory_resource) (st : DeviceState)
    (bytes ptr : Nat) (s : cuda_stream_view)
    (other : device_memory_resource) :
    r1 = r2 ∧
    do_allocate r1 st bytes s = do_allocate r2 st bytes s ∧
    do_deallocate r1 st ptr bytes s = do_deallocate r2 st ptr bytes s ∧
    do_get_mem_info r1 st s = do_get_mem_info r2 st s ∧
    supports_streams r1 = supports_streams r2 ∧
    supports_get_mem_info r1 = supports_get_mem_info r2 ∧
    do_is_equal r1 other = do_is_equal r2 other := by
  exact ⟨rfl, rfl, rfl, rfl, rfl, rfl, rfl⟩

/-- C2: when the native allocation primitive cannot satisfy the request
(it reports `cudaErrorMemoryAllocation`), `allocate` surfaces a typed
`out_of_memory` failure to the immediate caller (an `Except.error`, not a
termination), and that failure is distinct from every other device-error
failure. -/
theorem C2_alloc_oom (self : cuda_memory_resource) (st : DeviceState)
    (bytes : Nat) (s : cuda_stream_view)
    (h : (cudaMalloc st bytes).1.2 = .cudaErrorMemoryAllocation) :
    do_allocate self st bytes s = .error .out_of_memory ∧
    ∀ e : cudaError_t, rmm_error.out_of_memory ≠ rmm_error.cuda_error e := by
  refine ⟨?_, fun e hcontra => by cases hcontra⟩
  simp only [do_allocate]
  rw [h]
  rfl

/-- Witness for C2: on the healthy 4096-byte device a 5000-byte request
cannot be satisfied; `allocate` returns the typed out-of-memory error. -/
theorem C2_alloc_oom_witness :
    do_allocate {} healthyState 5000 defaultStream = .error .out_of_memory ∧
    ∀ e : cudaError_t, rmm_error.out_of_memory ≠ rmm_error.cuda_error e :=
  C2_alloc_oom {} healthyState 5000 defaultStream (by decide)

/-- C3: whenever the native free primitive reports failure, `deallocate`
takes the fatal-assertion path (program termination): the outcome is
`fatalAssert`, which is never the recoverable/no-op outcome `ok`. -/
theorem C3_dealloc_fatal (self : cuda_memory_resource) (st : DeviceState)
    (ptr bytes : Nat) (s : cuda_stream_view)
    (h : (cudaFree st ptr).1 ≠ .cudaSuccess) :
    (do_deallocate self st ptr bytes s).1 = .fatalAssert ∧
    DeallocOutcome.fatalAssert ≠ DeallocOutcome.ok := by
  refine ⟨?_, by decide⟩
  unfold do_deallocate RMM_ASSERT_CUDA_SUCCESS
  cases hf : (cudaFree st ptr).1 with
  | cudaSuccess => exact absurd hf h
  | cudaErrorMemoryAllocation => simp [hf]
  | cudaErrorInvalidValue => simp [hf]
  | cudaErrorIllegalAddress => simp [hf]
  | cudaErrorUnknown => simp [hf]

/-- Witness for C3: freeing address 7, which is not null and was never
allocated, makes the native free fail and `deallocate` hit the fatal
assertion. -/
theorem C3_dealloc_fatal_witness :
    (do_deallocate {} healthyState 7 4 defaultStream).1 = .fatalAssert ∧
    DeallocOutcome.fatalAssert ≠ DeallocOutcome.ok :=
  C3_dealloc_fatal {} healthyState 7 4 defaultStream (by decide)

/-- C5: `supports_get_mem_info()` returns true; when the native
device-wide memory-info query succeeds, `get_mem_info` returns exactly
its (free, total) pair; when it fails with status `e`, `get_mem_info`
surfaces the typed device-error failure `cuda_error e` to the immediate
caller, distinct from `out_of_memory`. -/
theorem C5_get_mem_info (self : cuda_memory_resource) (st : DeviceState)
    (s : cuda_stream_view) :
    supports_get_mem_info self = true ∧
    ((cudaMemGetInfo st).2 = .cudaSuccess →
      do_get_mem_info self st s = .ok (cudaMemGetInfo st).1) ∧
    (∀ e : cudaError_t, (cudaMemGetInfo st).2 = e → e ≠ .cudaSuccess →
      do_get_mem_info self st s = .error (.cuda_error e) ∧
      rmm_error.cuda_error e ≠ rmm_error.out_of_memory) := by
  refine ⟨rfl, ?_, ?_⟩
  · intro h
    simp only [do_get_mem_info]
    rw [h]
    rfl
  · intro e he hne
    refine ⟨?_, fun hcontra => by cases hcontra⟩
    simp only [do_get_mem_info, RMM_CUDA_TRY]
    rw [he]
    cases e with
    | cudaSuccess => exact absurd rfl hne
    | cudaErrorMemoryAllocation => rfl
    | cudaErrorInvalidValue => rfl
    | cudaErrorIllegalAddress => rfl
    | cudaErrorUnknown => rfl

/-- Witness for C5: on the healthy device the query returns the native
(4096, 4096) pair; on the faulted device it returns the typed
device-error failure. -/
theorem C5_get_mem_info_witness :
    (supports_get_mem_info {} = true ∧
      do_get_mem_info {} healthyState defaultStream = .ok (4096, 4096)) ∧
    (do_get_mem_info {} faultedState defaultStream =
        .error (.cuda_error .cudaErrorUnknown) ∧
      rmm_error.cuda_error .cudaErrorUnknown ≠ rmm_error.out_of_memory) :=
  ⟨⟨(C5_get_mem_info {} healthyState defaultStream).1,
    (C5_get_mem_info {} healthyState defaultStream).2.1 (by decide)⟩,
   (C5_get_mem_info {} faultedState defaultStream).2.2
     .cudaErrorUnknown (by decide) (by decide)⟩

/-- No latched fault reports the success status. -/
theorem FaultCode.toError_ne_success (f : FaultCode) :
    f.toError ≠ .cudaSuccess := by
  cases f <;> simp [FaultCode.toError]

/-- Characterisation of a successful `do_allocate`: the device had no
latched fault, and either the request was zero bytes (null sentinel, no
state change) or it fit in the free counter and a fresh 256-aligned
address was handed out and recorded. -/
theorem do_allocate_ok_cases (self : cuda_memory_resource)
    (st : DeviceState) (bytes : Nat) (s : cuda_stream_view)
    (ptr : Nat) (st2 : DeviceState)
    (h : do_allocate self st bytes s = .ok (ptr, st2)) :
    st.deviceFault = none ∧
    ((bytes = 0 ∧ ptr = 0 ∧ st2 = st) ∨
     (bytes ≠ 0 ∧ bytes ≤ st.freeBytes ∧ ptr = 256 * (st.nextIdx + 1) ∧
      st2 = { st with
                freeBytes := st.freeBytes - bytes
                live := (256 * (st.nextIdx + 1), bytes) :: st.live
                nextIdx := st.nextIdx + 1 })) := by
  simp only [do_allocate] at h
  rcases hdf : st.deviceFault with _ | f
  · simp only [cudaMalloc, hdf] at h
    by_cases hz : bytes = 0
    · rw [if_pos hz] at h
      simp only [RMM_CUDA_TRY_ALLOC] at h
      injection h with h1
      rw [Prod.mk.injEq] at h1
      exact ⟨rfl, Or.inl ⟨hz, h1.1.symm, h1.2.symm⟩⟩
    · rw [if_neg hz] at h
      by_cases hle : bytes ≤ st.freeBytes
      · rw [if_pos hle] at h
        simp only [RMM_CUDA_TRY_ALLOC] at h
        injection h with h1
        rw [Prod.mk.injEq] at h1
        exact ⟨rfl, Or.inr ⟨hz, hle, h1.1.symm, h1.2.symm⟩⟩
      · rw [if_neg hle] at h
        simp [RMM_CUDA_TRY_ALLOC] at h
  · simp only [cudaMalloc, hdf] at h
    cases f <;> simp [RMM_CUDA_TRY_ALLOC, FaultCode.toError] at h

/-- C6: for `bytes > 0`, if `allocate(bytes, s)` succeeds returning
`ptr`, the immediately following `deallocate(ptr, bytes, s)` succeeds
(never the fatal path), and the device free-byte accounting — and even
the live-allocation set — is back to what it was before the pair. -/
theorem C6_alloc_dealloc_roundtrip (self : cuda_memory_resource)
    (st : DeviceState) (bytes : Nat) (s : cuda_stream_view)
    (ptr : Nat) (st2 : DeviceState)
    (hb : 0 < bytes)
    (halloc : do_allocate self st bytes s = .ok (ptr, st2)) :
    (do_deallocate self st2 ptr bytes s).1 = .ok ∧
    (do_deallocate self st2 ptr bytes s).2.freeBytes = st.freeBytes ∧
    (do_deallocate self st2 ptr bytes s).2.live = st.live := by
  obtain ⟨hdf, hcase⟩ := do_allocate_ok_cases self st bytes s ptr st2 halloc
  rcases hcase with ⟨hz, _, _⟩ | ⟨hz, hle, hptr, hst2⟩
  · exact absurd hz (Nat.pos_iff_ne_zero.mp hb)
  · subst hptr
    subst hst2
    have hptr0 : 256 * (st.nextIdx + 1) ≠ 0 := by positivity
    have hfind :
        ((256 * (st.nextIdx + 1), bytes) :: st.live).find?
            (fun a => a.1 = 256 * (st.nextIdx + 1)) =
          some (256 * (st.nextIdx + 1), bytes) :=
      List.find?_cons_of_pos _ (by simp)
    simp [do_deallocate, cudaFree, if_neg hptr0, hdf, hfind,
      removeFirst, RMM_ASSERT_CUDA_SUCCESS, Nat.sub_add_cancel hle]

/-- The device state right after the witness allocation of 100 bytes on
the healthy device: address 256 live, free counter reduced. -/
def afterAllocState : DeviceState :=
  { total := 4096, freeBytes := 3996, live := [(256, 100)], nextIdx := 1,
    deviceFault := none }

/-- Witness for C6: allocating 100 bytes on the healthy device succeeds
at address 256, and the immediate deallocation succeeds and restores the
free counter and live set. -/
theorem C6_alloc_dealloc_roundtrip_witness :
    0 < 100 ∧
    ((do_deallocate {} afterAllocState 256 100 defaultStream).1 = .ok ∧
     (do_deallocate {} afterAllocState 256 100 defaultStream).2.freeBytes =
       healthyState.freeBytes ∧
     (do_deallocate {} afterAllocState 256 100 defaultStream).2.live =
       healthyState.live) :=
  ⟨by decide,
   C6_alloc_dealloc_roundtrip {} healthyState 100 defaultStream 256
     afterAllocState (by decide) rfl⟩

/-- Counterexample to C7 as stated: at `bytes = 0` on a healthy device,
`allocate` succeeds yet returns the null pointer (the non-dereferenceable
zero-byte sentinel), so "for every bytes, success returns a non-null
pointer" is false. -/
theorem C7_counterexample :
    do_allocate {} healthyState 0 defaultStream =
      .ok (0, healthyState) ∧
    ¬ (∀ ptr : Nat, ∀ st2 : DeviceState,
        do_allocate {} healthyState 0 defaultStream = .ok (ptr, st2) →
        ptr ≠ 0) :=
  ⟨rfl, fun h => h 0 healthyState rfl rfl⟩

/-- C7 (amended to `bytes > 0`): when `allocate` succeeds for a positive
request it returns a non-null pointer, aligned to 256 bytes, and the
device records an allocation of `bytes` bytes at that address; for
`bytes = 0` the null sentinel may be returned instead. -/
theorem C7_alloc_nonnull_aligned (self : cuda_memory_resource)
    (st : DeviceState) (bytes : Nat) (s : cuda_stream_view)
    (ptr : Nat) (st2 : DeviceState)
    (hb : 0 < bytes)
    (halloc : do_allocate self st bytes s = .ok (ptr, st2)) :
    ptr ≠ 0 ∧ ptr % 256 = 0 ∧ (ptr, bytes) ∈ st2.live := by
  obtain ⟨hdf, hcase⟩ := do_allocate_ok_cases self st bytes s ptr st2 halloc
  rcases hcase with ⟨hz, _, _⟩ | ⟨hz, hle, hptr, hst2⟩
  · exact absurd hz (Nat.pos_iff_ne_zero.mp hb)
  · subst hptr
    subst hst2
    refine ⟨by positivity, Nat.mul_mod_right 256 _, ?_⟩
    exact List.mem_cons_self _ _

/-- Witness for C7: the 100-byte allocation on the healthy device yields
address 256: non-null, 256-aligned, recorded with its size. -/
theorem C7_alloc_nonnull_aligned_witness :
    0 < 100 ∧
    ((256 : Nat) ≠ 0 ∧ (256 : Nat) % 256 = 0 ∧
      ((256 : Nat), (100 : Nat)) ∈ afterAllocState.live) :=
  ⟨by decide,
   C7_alloc_nonnull_aligned {} healthyState 100 defaultStream 256
     afterAllocState (by decide) rfl⟩

/-- C8: on a device with no latched fault, `allocate(0, s)` succeeds
returning the null sentinel without touching the device, and
`deallocate(sentinel, 0, s)` is a no-op that succeeds — it never reaches
the fatal deallocation-failure path. -/
theorem C8_zero_byte_roundtrip (self : cuda_memory_resource)
    (st : DeviceState) (s : cuda_stream_view)
    (hdf : st.deviceFault = none) :
    do_allocate self st 0 s = .ok (0, st) ∧
    do_deallocate self st 0 0 s = (.ok, st) ∧
    (do_deallocate self st 0 0 s).1 ≠ .fatalAssert := by
  refine ⟨?_, ?_, ?_⟩
  · simp [do_allocate, cudaMalloc, hdf, RMM_CUDA_TRY_ALLOC]
  · simp [do_deallocate, cudaFree, RMM_ASSERT_CUDA_SUCCESS]
  · simp [do_deallocate, cudaFree, RMM_ASSERT_CUDA_SUCCESS]

/-- Witness for C8: the zero-byte round trip on the healthy device. -/
theorem C8_zero_byte_roundtrip_witness :
    do_allocate {} healthyState 0 defaultStream = .ok (0, healthyState) ∧
    do_deallocate {} healthyState 0 0 defaultStream = (.ok, healthyState) ∧
    (do_deallocate {} healthyState 0 0 defaultStream).1 ≠ .fatalAssert :=
  C8_zero_byte_roundtrip {} healthyState defaultStream (by decide)
